import Mathlib

/-!
Verification of the foodgram backend core: shopping-list aggregation,
recipe-ingredient validation, collection toggles (favorite / shopping cart /
subscription) and the plain-text report renderer, shallowly embedded from
`backend/recipes/models.py`, `backend/foodgram_api/views.py`,
`backend/foodgram_api/serializers.py` and `backend/foodgram_api/renderers.py`.
-/

namespace Foodgram

/-- `recipes.models.Ingredient`: a named consumable with a measurement unit
(and a primary key, as every Django model has). -/
structure Ingredient where
  id : Nat
  name : String
  measurement_unit : String
deriving DecidableEq, Repr

/-- `recipes.models.Recipe`: only the fields the verified operations read. -/
structure Recipe where
  id : Nat
  name : String
deriving DecidableEq, Repr

/-- `recipes.models.RecipeIngredient`: join row of Recipe x Ingredient with an
amount. -/
structure RecipeIngredient where
  recipe : Nat
  ingredient : Ingredient
  amount : Int
deriving DecidableEq, Repr

/-- The grouping key used by the aggregation query in
`RecipeViewSet.download_shopping_cart`: `(ingredient__name,
ingredient__measurement_unit)`. -/
def riKey (r : RecipeIngredient) : String × String :=
  (r.ingredient.name, r.ingredient.measurement_unit)

/-- One output row of the aggregation query: `.values(name=..., measurement_unit
=...).annotate(amount=Sum(amount))`. -/
structure AggRow where
  name : String
  measurement_unit : String
  amount : Int
deriving DecidableEq, Repr

/-- Key of an aggregated row, for stating distinctness of groups. -/
def aggKey (a : AggRow) : String × String :=
  (a.name, a.measurement_unit)

/-- `ORDER BY name`: compare aggregated rows by ingredient name. -/
def byName (a b : AggRow) : Prop :=
  a.name ≤ b.name

instance : DecidableRel byName :=
  fun a b => inferInstanceAs (Decidable (a.name ≤ b.name))

instance : IsTotal AggRow byName :=
  ⟨fun a b => le_total a.name b.name⟩

instance : IsTrans AggRow byName :=
  ⟨fun _ _ _ hab hbc => le_trans hab hbc⟩

/-- `RecipeIngredient.objects.filter(recipe__in=user.shoppingcarts.values(
recipe))`: the ingredient rows of the recipes in the cart.  The filter keeps
each stored row at most once. -/
def cartRows (rows : List RecipeIngredient) (cart : List Nat) : List RecipeIngredient :=
  rows.filter (fun r => cart.contains r.recipe)

/-- Total amount of a grouping key over a list of rows: `Sum(amount)` for the
group. -/
def sumAmounts (rows : List RecipeIngredient) (k : String × String) : Int :=
  ((rows.filter (fun r => riKey r = k)).map (fun r => r.amount)).sum

/-- `GROUP BY (name, measurement_unit)` then `Sum(amount)` then
`ORDER BY name`: the aggregation pipeline of `download_shopping_cart`. -/
def aggregate (rows : List RecipeIngredient) (cart : List Nat) : List AggRow :=
  let sel := cartRows rows cart
  let grouped := (sel.map riKey).dedup.map
    (fun k => AggRow.mk k.1 k.2 (sumAmounts sel k))
  grouped.insertionSort byName

/-! ## Renderer (`foodgram_api/renderers.py`) -/

/-- `str.capitalize` from Python: first character uppercased, the rest
lowercased. -/
def pyCapitalize (s : String) : String :=
  match s.data with
  | [] => ""
  | c :: rest => String.mk (c.toUpper :: rest.map Char.toLower)

/-- `SHOPPING_LIST_HEADER` template instantiated with the date. -/
def SHOPPING_LIST_HEADER (date : String) : String :=
  "Список покупок (составлен: " ++ date ++ "):"

/-- `PRODUCT_ITEM` template instantiated with index, name, amount and unit. -/
def PRODUCT_ITEM (index : Nat) (name : String) (amount : Int) (unit : String) : String :=
  toString index ++ ". " ++ name ++ " - " ++ toString amount ++ " " ++ unit

/-- `RECIPE_LIST_HEADER` constant. -/
def RECIPE_LIST_HEADER : String :=
  "Для следующих рецептов:"

/-- `RECIPE_ITEM` template instantiated with the recipe name. -/
def RECIPE_ITEM (recipe : String) : String :=
  "- " ++ recipe

/-- `EMPTY_LIST_MESSAGE` constant. -/
def EMPTY_LIST_MESSAGE : String :=
  "Список покупок пуст."

/-- `render_shopping_list(ingredients, recipes)`.  `datetime.now()` is passed
in as the `date` argument. -/
def render_shopping_list (date : String) (ingredients : List AggRow)
    (recipes : List String) : String :=
  if ingredients.isEmpty then EMPTY_LIST_MESSAGE
  else
    let product_lines := ingredients.enum.map
      (fun p => PRODUCT_ITEM (p.1 + 1) (pyCapitalize p.2.name) p.2.amount
        p.2.measurement_unit)
    let recipe_lines := recipes.map (fun r => RECIPE_ITEM r)
    String.intercalate ("\n")
      ([SHOPPING_LIST_HEADER date] ++ product_lines
        ++ [RECIPE_LIST_HEADER] ++ recipe_lines)

/-- `RecipeViewSet.download_shopping_cart`: aggregate the ingredient rows of
the cart's recipes and render the report.  `cart` is the user's shopping-cart
rows joined to their recipes (`user.shoppingcarts`); `rows` is the
`RecipeIngredient` table. -/
def download_shopping_cart (date : String) (rows : List RecipeIngredient)
    (cart : List Recipe) : String :=
  render_shopping_list date
    (aggregate rows (cart.map (fun r => r.id)))
    (cart.map (fun r => r.name))

/-! ## Recipe ingredient validation (`foodgram_api/serializers.py`) -/

/-- One entry of the submitted `ingredients` list after field validation:
`id` has been resolved to an `Ingredient` instance by
`PrimaryKeyRelatedField`. -/
structure IngredientInput where
  id : Ingredient
  amount : Int
deriving DecidableEq, Repr

/-- `duplicate_ids` from `RecipeSerializer.validate`: the set of ingredient
ids occurring more than once in the submitted list. -/
def duplicate_ids (ingredients : List IngredientInput) : List Ingredient :=
  let ingredient_ids := ingredients.map (fun i => i.id)
  (ingredient_ids.filter (fun i => ingredient_ids.count i > 1)).dedup

/-- The duplicate-ingredient error message, built from the offending set as
the f-string in `RecipeSerializer.validate` does. -/
def dup_message (dups : List Ingredient) : String :=
  "Ингредиенты не должны повторяться. Дубли: "
    ++ String.intercalate (", ") (dups.map (fun i => i.name))

/-- The empty-ingredient-list error message of `RecipeSerializer.validate`. -/
def empty_ingredients_message : String :=
  "Необходимо указать хотя бы один ингредиент."

/-- `RecipeSerializer.validate`: reject an empty ingredient list, reject
duplicate ingredient ids reporting the offenders, else accept the data. -/
def validate (ingredients : List IngredientInput) :
    Except String (List IngredientInput) :=
  if ingredients.isEmpty then
    Except.error empty_ingredients_message
  else
    let dups := duplicate_ids ingredients
    if dups.isEmpty then Except.ok ingredients
    else Except.error (dup_message dups)

/-- The mutable store the recipe-ingredient operations touch: the
`RecipeIngredient` table. -/
structure DB where
  recipe_ingredients : List RecipeIngredient
deriving DecidableEq, Repr

/-- The ingredient rows currently stored for a recipe
(`recipe.recipe_ingredients.all()`). -/
def recipeRows (db : DB) (rid : Nat) : List RecipeIngredient :=
  db.recipe_ingredients.filter (fun r => r.recipe = rid)

/-- First statement of `save_recipe_ingredients`:
`recipe.recipe_ingredients.all().delete()`. -/
def delete_recipe_rows (db : DB) (rid : Nat) : DB :=
  DB.mk (db.recipe_ingredients.filter (fun r => ¬ r.recipe = rid))

/-- Second statement of `save_recipe_ingredients`:
`RecipeIngredient.objects.bulk_create([...])`. -/
def bulk_create_rows (db : DB) (rid : Nat) (data : List IngredientInput) : DB :=
  DB.mk (db.recipe_ingredients
    ++ data.map (fun d => RecipeIngredient.mk rid d.id d.amount))

/-- `RecipeSerializer.save_recipe_ingredients`, as the sequence of database
states its two writes produce, in order: the state after the delete, then the
state after the bulk_create.  The source wraps the two statements in no
transaction, so each state is committed and observable on its own. -/
def save_recipe_ingredients (db : DB) (rid : Nat)
    (data : List IngredientInput) : List DB :=
  let db1 := delete_recipe_rows db rid
  [db1, bulk_create_rows db1 rid data]

/-- `RecipeSerializer.create` restricted to the `RecipeIngredient` table:
field validation and `validate` run first (`is_valid(raise_exception=True)`);
only on success does `save_recipe_ingredients` write. -/
def create_recipe (db : DB) (rid : Nat)
    (ingredients : List IngredientInput) : DB × Except String Unit :=
  match validate ingredients with
  | Except.error e => (db, Except.error e)
  | Except.ok ing =>
      ((save_recipe_ingredients db rid ing).getLastD db, Except.ok ())

/-- `RecipeSerializer.update` restricted to the `RecipeIngredient` table:
same pipeline as `create_recipe`, replacing the existing rows. -/
def update_recipe (db : DB) (rid : Nat)
    (ingredients : List IngredientInput) : DB × Except String Unit :=
  match validate ingredients with
  | Except.error e => (db, Except.error e)
  | Except.ok ing =>
      ((save_recipe_ingredients db rid ing).getLastD db, Except.ok ())

/-! ## Collection toggles (`foodgram_api/views.py`) -/

/-- A user-to-target relation table (FavoriteRecipe, ShoppingCart or
Subscribe): pairs of (user id, target id). -/
abbrev Rel := List (Nat × Nat)

/-- `Model.objects.get_or_create(user=..., recipe=...)`: return the unchanged
table and `created = false` when the pair exists, else insert it. -/
def get_or_create (rels : Rel) (user target : Nat) : Rel × Bool :=
  if (user, target) ∈ rels then (rels, false)
  else (rels ++ [(user, target)], true)

/-- `RecipeViewSet.add_to_collection`: get_or_create the relation, raise a
ValidationError built by `error_message.format(recipe=recipe)` when it
already existed, else answer 201. -/
def add_to_collection (rels : Rel) (user recipe : Nat)
    (error_message : Nat → String) : Rel × Except String Nat :=
  let p := get_or_create rels user recipe
  if p.2 then (p.1, Except.ok 201)
  else (p.1, Except.error (error_message recipe))

/-- `UserViewSet.subscribe`, POST branch: reject self-subscription, then
get_or_create and reject an existing pair, else answer 201. -/
def subscribe_post (subs : Rel) (user author : Nat) : Rel × Except String Nat :=
  if user = author then
    (subs, Except.error ("Вы не можете подписаться на себя!"))
  else
    let p := get_or_create subs user author
    if p.2 then (p.1, Except.ok 201)
    else (p.1, Except.error ("Вы уже подписаны на пользователя "
      ++ toString author ++ "!"))

/-- `UserViewSet.subscribe`, DELETE branch: `get_object_or_404` raises 404
(the `Except.error` case) when the pair is absent, else the row is deleted
and a 204 Response is returned. -/
def subscribe_delete (subs : Rel) (user author : Nat) :
    Rel × Except Nat (Option Nat) :=
  if (user, author) ∈ subs then
    (subs.filter (fun p => ¬ p = (user, author)), Except.ok (some 204))
  else (subs, Except.error 404)

/-- `RecipeViewSet.remove_from_collection`: `get_object_or_404` on the user's
collection raises 404 when the pair is absent, else deletes it and returns a
204 Response. -/
def remove_from_collection (rels : Rel) (user recipe_id : Nat) :
    Rel × Except Nat Nat :=
  if (user, recipe_id) ∈ rels then
    (rels.filter (fun p => ¬ p = (user, recipe_id)), Except.ok 204)
  else (rels, Except.error 404)

/-- `RecipeViewSet.delete_shopping_cart`: calls `remove_from_collection`
without returning its Response, so the handler's value is Python `None`
(`Except.ok none`); a raised Http404 propagates. -/
def delete_shopping_cart (shoppingcarts : Rel) (user pk : Nat) :
    Rel × Except Nat (Option Nat) :=
  match remove_from_collection shoppingcarts user pk with
  | (rels, Except.error e) => (rels, Except.error e)
  | (rels, Except.ok _) => (rels, Except.ok none)

/-- `RecipeViewSet.delete_favorite`: same shape as `delete_shopping_cart`,
on the FavoriteRecipe table. -/
def delete_favorite (favoriterecipes : Rel) (user pk : Nat) :
    Rel × Except Nat (Option Nat) :=
  match remove_from_collection favoriterecipes user pk with
  | (rels, Except.error e) => (rels, Except.error e)
  | (rels, Except.ok _) => (rels, Except.ok none)

/-! ## `UserDetailSerializer.get_recipes` (`foodgram_api/serializers.py`) -/

/-- Strip surrounding whitespace from a character list, as `int()` does to
its argument. -/
def trimChars (cs : List Char) : List Char :=
  ((cs.dropWhile (fun c => c.isWhitespace)).reverse.dropWhile
    (fun c => c.isWhitespace)).reverse

/-- No two adjacent underscores. -/
def noDoubleUnderscore : List Char → Bool
  | c :: d :: rest => !(c = '_' && d = '_') && noDoubleUnderscore (d :: rest)
  | _ => true

/-- The digit part accepted by Python `int()`: non-empty, starts and ends
with a digit, made of digits and single underscores between digit groups. -/
def validDigits (cs : List Char) : Bool :=
  (match cs with
   | [] => false
   | c :: _ => c.isDigit) &&
  (match cs.getLast? with
   | none => false
   | some c => c.isDigit) &&
  cs.all (fun c => c.isDigit || c = '_') &&
  noDoubleUnderscore cs

/-- Numeric value of a list of decimal digits. -/
def digitsValue (cs : List Char) : Nat :=
  cs.foldl (fun acc c => 10 * acc + (c.toNat - 48)) 0

/-- Python `int(s)` on a string: optional surrounding whitespace, an optional
sign, then decimal digits with single underscores allowed between digit
groups; `none` models a raised ValueError. -/
def pyInt (s : String) : Option Int :=
  let t := trimChars s.data
  let sgnCore : Int × List Char :=
    match t with
    | c :: rest =>
        if c = '-' then (-1, rest)
        else if c = '+' then (1, rest)
        else (1, t)
    | [] => (1, t)
  if validDigits sgnCore.2 then
    some (sgnCore.1 * digitsValue (sgnCore.2.filter (fun c => ¬ c = '_')))
  else none

/-- `UserDetailSerializer.get_recipes`: parse `recipes_limit` with `int()`
(defaulting to the integer `10 ** 10` when the query parameter is absent) and
slice the user's recipes.  `Except.error` models an uncaught exception:
ValueError from `int()`, or the AssertionError Django raises on a negative
slice bound. -/
def get_recipes (recipes_limit : Option String) (recipes : List Recipe) :
    Except String (List Recipe) :=
  match (match recipes_limit with
         | none => some ((10 : Int) ^ 10)
         | some s => pyInt s) with
  | none => Except.error ("ValueError: invalid literal for int() with base 10")
  | some n =>
      if n < 0 then Except.error ("AssertionError: Negative indexing is not supported.")
      else Except.ok (recipes.take n.toNat)

/-! ## Concrete data used by examples and witnesses -/

/-- The flour ingredient of the spec's worked example. -/
def flourIng : Ingredient := ⟨1, "flour", "g"⟩

/-- The sugar ingredient of the spec's worked example. -/
def sugarIng : Ingredient := ⟨2, "sugar", "g"⟩

/-- Ingredient rows of the spec's worked example: R1 has flour 200 g, R2 has
flour 100 g and sugar 50 g. -/
def exampleRows : List RecipeIngredient :=
  [⟨1, flourIng, 200⟩, ⟨2, flourIng, 100⟩, ⟨2, sugarIng, 50⟩]

/-- The example cart: recipes R1 and R2. -/
def exampleCart : List Recipe := [⟨1, "R1"⟩, ⟨2, "R2"⟩]

/-! ## Theorems -/

/-- Unfolding of `aggregate` without its local lets. -/
lemma aggregate_eq (rows : List RecipeIngredient) (cart : List Nat) :
    aggregate rows cart
      = (((cartRows rows cart).map riKey).dedup.map
          (fun k => AggRow.mk k.1 k.2 (sumAmounts (cartRows rows cart) k))).insertionSort
            byName := rfl

/-- Taking the key of a grouped row recovers the grouping key. -/
lemma grouped_map_aggKey (sel : List RecipeIngredient) :
    (((sel.map riKey).dedup.map
        (fun k => AggRow.mk k.1 k.2 (sumAmounts sel k))).map aggKey)
      = (sel.map riKey).dedup := by
  rw [List.map_map]
  have hfun : (aggKey ∘ fun k : String × String =>
      AggRow.mk k.1 k.2 (sumAmounts sel k)) = id := by
    funext k
    simp [aggKey]
  rw [hfun, List.map_id]

/-- C1: the shopping-list aggregation joins the cart's recipes to their
ingredient rows, groups by (ingredient name, measurement unit), sums the
amount over each group exactly once (each selected row contributes exactly
once to the sum of its own group), and outputs the groups sorted by
ingredient name ascending. -/
theorem download_aggregation_correct (rows : List RecipeIngredient)
    (cart : List Nat) :
    List.Sorted byName (aggregate rows cart) ∧
    ((aggregate rows cart).map aggKey).Nodup ∧
    (∀ k, k ∈ (aggregate rows cart).map aggKey
      ↔ k ∈ (cartRows rows cart).map riKey) ∧
    (∀ a ∈ aggregate rows cart,
      a.amount = sumAmounts (cartRows rows cart) (aggKey a)) := by
  have hperm : List.Perm (aggregate rows cart)
      (((cartRows rows cart).map riKey).dedup.map
        (fun k => AggRow.mk k.1 k.2 (sumAmounts (cartRows rows cart) k))) := by
    rw [aggregate_eq]
    exact List.perm_insertionSort _ _
  refine ⟨?_, ?_, ?_, ?_⟩
  · rw [aggregate_eq]
    exact List.sorted_insertionSort byName _
  · rw [(hperm.map aggKey).nodup_iff, grouped_map_aggKey]
    exact List.nodup_dedup _
  · intro k
    rw [(hperm.map aggKey).mem_iff, grouped_map_aggKey, List.mem_dedup]
  · intro a ha
    rcases List.mem_map.mp (hperm.mem_iff.mp ha) with ⟨k, _, rfl⟩
    simp [aggKey]

/-- C1 witness: the general theorem applied to the example cart. -/
theorem download_aggregation_correct_witness :
    List.Sorted byName (aggregate exampleRows [1, 2]) ∧
    (AggRow.mk "flour" "g" 300).amount
      = sumAmounts (cartRows exampleRows [1, 2])
          (aggKey (AggRow.mk "flour" "g" 300)) :=
  ⟨(download_aggregation_correct exampleRows [1, 2]).1,
   (download_aggregation_correct exampleRows [1, 2]).2.2.2 _
     (by rw [aggregate_eq, List.mem_insertionSort]; decide)⟩

/-- The aggregation of the example cart: flour 300 g then sugar 50 g. -/
lemma aggregate_example :
    aggregate exampleRows (exampleCart.map (fun r => r.id))
      = [AggRow.mk "flour" "g" 300, AggRow.mk "sugar" "g" 50] := by
  have hflour_le : byName (AggRow.mk "flour" "g" 300) (AggRow.mk "sugar" "g" 50) := by
    show ("flour" : String) ≤ ("sugar" : String)
    rw [String.le_iff_toList_le]
    decide
  have hgrouped : ((cartRows exampleRows (exampleCart.map (fun r => r.id))).map
        riKey).dedup.map
      (fun k => AggRow.mk k.1 k.2
        (sumAmounts (cartRows exampleRows (exampleCart.map (fun r => r.id))) k))
      = [AggRow.mk "flour" "g" 300, AggRow.mk "sugar" "g" 50] := by decide
  rw [aggregate_eq, hgrouped]
  simp [List.insertionSort, List.orderedInsert, hflour_le]

set_option maxRecDepth 8000 in
/-- C2 counterexample: the rendered report for the example cart contains
neither the product line "1. Flour - 50 g" nor the product line
"2. Flour - 300 g" claimed by the spec's example. -/
theorem example_report_claim_false :
    ¬ (List.IsInfix ("1. Flour - 50 g").data
        (download_shopping_cart ("2025-01-01 12:00:00") exampleRows exampleCart).data
      ∧ List.IsInfix ("2. Flour - 300 g").data
        (download_shopping_cart ("2025-01-01 12:00:00") exampleRows exampleCart).data) := by
  unfold download_shopping_cart
  rw [aggregate_example]
  decide

set_option maxRecDepth 8000 in
/-- C2 (amended): for the example cart the report is the header followed by
the product lines "1. Flour - 300 g" and "2. Sugar - 50 g" in sorted order,
followed by the contributing recipe list [R1, R2]. -/
theorem example_report_corrected :
    download_shopping_cart ("2025-01-01 12:00:00") exampleRows exampleCart
      = String.intercalate ("\n")
          [SHOPPING_LIST_HEADER ("2025-01-01 12:00:00"),
           "1. Flour - 300 g", "2. Sugar - 50 g",
           RECIPE_LIST_HEADER, RECIPE_ITEM ("R1"), RECIPE_ITEM ("R2")] := by
  unfold download_shopping_cart
  rw [aggregate_example]
  decide

/-- C3: on recipe create and update, an empty submitted ingredient list is
rejected, a list with a repeated ingredient id is rejected with the message
built from the set of offending duplicate ids (characterised as exactly the
ids occurring more than once), and in both cases the stored ingredient rows
are unchanged. -/
theorem recipe_ingredient_validation (db : DB) (rid : Nat)
    (l : List IngredientInput) :
    (l = [] →
      create_recipe db rid l = (db, Except.error empty_ingredients_message) ∧
      update_recipe db rid l = (db, Except.error empty_ingredients_message)) ∧
    (duplicate_ids l ≠ [] →
      create_recipe db rid l
          = (db, Except.error (dup_message (duplicate_ids l))) ∧
      update_recipe db rid l
          = (db, Except.error (dup_message (duplicate_ids l)))) ∧
    (∀ i, i ∈ duplicate_ids l ↔ 1 < (l.map (fun x => x.id)).count i) := by
  refine ⟨?_, ?_, ?_⟩
  · rintro rfl
    exact ⟨rfl, rfl⟩
  · intro hdup
    have hval : validate l = Except.error (dup_message (duplicate_ids l)) := by
      have hne : l.isEmpty = false := by
        rw [List.isEmpty_eq_false]
        rintro rfl
        exact hdup rfl
      have hd : (duplicate_ids l).isEmpty = false :=
        List.isEmpty_eq_false.mpr hdup
      simp [validate, hne, hd]
    constructor
    · simp [create_recipe, hval]
    · simp [update_recipe, hval]
  · intro i
    simp only [duplicate_ids, List.mem_dedup, List.mem_filter,
      decide_eq_true_eq]
    constructor
    · rintro ⟨-, h⟩
      exact h
    · intro h
      exact ⟨List.count_pos_iff.mp (Nat.lt_trans Nat.zero_lt_one h), h⟩

/-- C3 witness: the theorem applied to an empty list and to a list repeating
the flour ingredient. -/
theorem recipe_ingredient_validation_witness :
    create_recipe (DB.mk []) 1 ([] : List IngredientInput)
        = (DB.mk [], Except.error empty_ingredients_message) ∧
    update_recipe (DB.mk []) 1
        [IngredientInput.mk flourIng 1, IngredientInput.mk flourIng 2]
        = (DB.mk [], Except.error (dup_message (duplicate_ids
            [IngredientInput.mk flourIng 1, IngredientInput.mk flourIng 2]))) :=
  ⟨((recipe_ingredient_validation (DB.mk []) 1 []).1 rfl).1,
   ((recipe_ingredient_validation (DB.mk []) 1
      [IngredientInput.mk flourIng 1, IngredientInput.mk flourIng 2]).2.1
      (by decide)).2⟩

/-- C4 (code bug): `save_recipe_ingredients` performs the delete of the
recipe's rows and the bulk_create of the new ones as two separate writes with
no enclosing transaction.  For the concrete update of recipe 1 (currently
flour 200 g) with new data [sugar 5 g], the state after the first write holds
no ingredient rows for the recipe, so an intermediate empty ingredient list
is observable, and a failure of the second write would leave the previous
rows deleted rather than unchanged. -/
theorem ingredient_replace_not_atomic :
    recipeRows ((save_recipe_ingredients
        (DB.mk [RecipeIngredient.mk 1 flourIng 200]) 1
        [IngredientInput.mk sugarIng 5]).headD (DB.mk [])) 1 = [] ∧
    (save_recipe_ingredients (DB.mk [RecipeIngredient.mk 1 flourIng 200]) 1
        [IngredientInput.mk sugarIng 5]).headD (DB.mk [])
      ≠ DB.mk [RecipeIngredient.mk 1 flourIng 200] := by
  decide

/-- C5: adding an already-present favorite / shopping-cart / subscription
pair fails with a reported validation error and leaves the stored relations
unchanged. -/
theorem duplicate_add_rejected (rels subs : Rel) (u r a : Nat)
    (msg : Nat → String) (hrel : (u, r) ∈ rels) (hsub : (u, a) ∈ subs)
    (hne : u ≠ a) :
    add_to_collection rels u r msg = (rels, Except.error (msg r)) ∧
    subscribe_post subs u a
      = (subs, Except.error ("Вы уже подписаны на пользователя "
          ++ toString a ++ "!")) := by
  constructor
  · simp [add_to_collection, get_or_create, hrel]
  · simp [subscribe_post, get_or_create, hrel, hsub, hne]

/-- C5 witness: a second add of the same pair fails for a collection and for
a subscription. -/
theorem duplicate_add_rejected_witness :
    add_to_collection [(1, 2)] 1 2 (fun n => toString n)
        = ([(1, 2)], Except.error (toString 2)) ∧
    subscribe_post [(1, 3)] 1 3
        = ([(1, 3)], Except.error ("Вы уже подписаны на пользователя "
            ++ toString 3 ++ "!")) :=
  duplicate_add_rejected [(1, 2)] [(1, 3)] 1 2 3 (fun n => toString n)
    (by decide) (by decide) (by decide)

/-- C6: deleting a favorite, shopping-cart or subscription relation that is
not stored fails with 404 and leaves the stored relations unchanged. -/
theorem missing_relation_delete_404 (rels subs : Rel) (u r a : Nat)
    (hrel : (u, r) ∉ rels) (hsub : (u, a) ∉ subs) :
    remove_from_collection rels u r = (rels, Except.error 404) ∧
    delete_shopping_cart rels u r = (rels, Except.error 404) ∧
    delete_favorite rels u r = (rels, Except.error 404) ∧
    subscribe_delete subs u a = (subs, Except.error 404) := by
  have h1 : remove_from_collection rels u r = (rels, Except.error 404) := by
    simp [remove_from_collection, hrel]
  refine ⟨h1, ?_, ?_, ?_⟩
  · simp [delete_shopping_cart, h1]
  · simp [delete_favorite, h1]
  · simp [subscribe_delete, hsub]

/-- C6 witness: deleting from empty relation tables answers 404. -/
theorem missing_relation_delete_404_witness :
    remove_from_collection [] 1 2 = ([], Except.error 404) ∧
    delete_shopping_cart [] 1 2 = ([], Except.error 404) ∧
    delete_favorite [] 1 2 = ([], Except.error 404) ∧
    subscribe_delete [] 1 2 = ([], Except.error 404) :=
  missing_relation_delete_404 [] [] 1 2 2 (by decide) (by decide)

/-- C7: a subscribe POST whose acting user equals the target author is
rejected with a validation error and the subscription table is unchanged. -/
theorem self_subscribe_rejected (subs : Rel) (u : Nat) :
    subscribe_post subs u u
      = (subs, Except.error ("Вы не можете подписаться на себя!")) := by
  simp [subscribe_post]

/-- An empty cart selects no ingredient rows. -/
lemma cartRows_nil (rows : List RecipeIngredient) : cartRows rows [] = [] := by
  simp [cartRows]

/-- Aggregation over an empty cart is empty, never an error. -/
lemma aggregate_nil (rows : List RecipeIngredient) : aggregate rows [] = [] := by
  rw [aggregate_eq, cartRows_nil]
  rfl

/-- Mapping an index-using function over `enumFrom` is zipping with a range
of indices shifted by one. -/
lemma enumFrom_map_eq_zipWith {α β : Type} (f : Nat → α → β) (l : List α) :
    ∀ n, (l.enumFrom n).map (fun p => f (p.1 + 1) p.2)
        = List.zipWith f (List.range' (n + 1) l.length) l := by
  induction l with
  | nil => intro n; rfl
  | cons a t ih =>
      intro n
      rw [List.enumFrom_cons, List.map_cons, ih (n + 1), List.length_cons,
        List.range'_succ (n + 1) t.length 1, List.zipWith_cons_cons]

/-- C8: with an empty shopping cart the download renders exactly the fixed
empty-list message; with a non-empty aggregation the report is the
timestamped header, one product line per aggregated ingredient of the form
"index. Name - amount unit" with indices 1, 2, ..., followed by the list of
contributing recipe names. -/
theorem download_report_shape (date : String) (rows : List RecipeIngredient)
    (cart : List Recipe) :
    (cart = [] → download_shopping_cart date rows cart = EMPTY_LIST_MESSAGE) ∧
    (aggregate rows (cart.map (fun r => r.id)) ≠ [] →
      download_shopping_cart date rows cart
        = String.intercalate ("\n")
            ([SHOPPING_LIST_HEADER date]
              ++ List.zipWith
                  (fun i a => PRODUCT_ITEM i (pyCapitalize a.name) a.amount
                    a.measurement_unit)
                  (List.range' 1
                    (aggregate rows (cart.map (fun r => r.id))).length)
                  (aggregate rows (cart.map (fun r => r.id)))
              ++ [RECIPE_LIST_HEADER]
              ++ (cart.map (fun r => r.name)).map RECIPE_ITEM)) := by
  constructor
  · rintro rfl
    simp [download_shopping_cart, aggregate_nil, render_shopping_list]
  · intro hne
    have hb : (aggregate rows (cart.map (fun r => r.id))).isEmpty = false :=
      List.isEmpty_eq_false.mpr hne
    have hlines := enumFrom_map_eq_zipWith
      (fun i a => PRODUCT_ITEM i (pyCapitalize a.name) a.amount
        a.measurement_unit)
      (aggregate rows (cart.map (fun r => r.id))) 0
    simp only [download_shopping_cart, render_shopping_list, hb,
      Bool.false_eq_true, if_false]
    rw [show (0 : Nat) + 1 = 1 from rfl] at hlines
    rw [List.enum, hlines]

/-- C8 witness: the theorem applied to an empty cart and to the example
cart. -/
theorem download_report_shape_witness :
    download_shopping_cart ("D") exampleRows [] = EMPTY_LIST_MESSAGE ∧
    download_shopping_cart ("D") exampleRows exampleCart
      = String.intercalate ("\n")
          ([SHOPPING_LIST_HEADER ("D")]
            ++ List.zipWith
                (fun i a => PRODUCT_ITEM i (pyCapitalize a.name) a.amount
                  a.measurement_unit)
                (List.range' 1
                  (aggregate exampleRows (exampleCart.map (fun r => r.id))).length)
                (aggregate exampleRows (exampleCart.map (fun r => r.id)))
            ++ [RECIPE_LIST_HEADER]
            ++ (exampleCart.map (fun r => r.name)).map RECIPE_ITEM) :=
  ⟨(download_report_shape ("D") exampleRows []).1 rfl,
   (download_report_shape ("D") exampleRows exampleCart).2
     (by rw [aggregate_example]; decide)⟩

/-- C9: on a successful removal of an existing relation, the handlers
`delete_shopping_cart` and `delete_favorite` evaluate to Python None
(`Except.ok none`) because they do not return the 204 Response built by
`remove_from_collection`, while the subscription DELETE returns a 204
response; in all three cases the relation row is removed. -/
theorem collection_delete_returns_none (carts favs subs : Rel) (u pk a : Nat)
    (hc : (u, pk) ∈ carts) (hf : (u, pk) ∈ favs) (hs : (u, a) ∈ subs) :
    (delete_shopping_cart carts u pk).2 = Except.ok none ∧
    (delete_favorite favs u pk).2 = Except.ok none ∧
    (subscribe_delete subs u a).2 = Except.ok (some 204) := by
  refine ⟨?_, ?_, ?_⟩
  · simp [delete_shopping_cart, remove_from_collection, hc]
  · simp [delete_favorite, remove_from_collection, hf]
  · simp [subscribe_delete, hs]

/-- C9 witness: the theorem applied to singleton relation tables. -/
theorem collection_delete_returns_none_witness :
    (delete_shopping_cart [(1, 2)] 1 2).2 = Except.ok none ∧
    (delete_favorite [(1, 2)] 1 2).2 = Except.ok none ∧
    (subscribe_delete [(1, 3)] 1 3).2 = Except.ok (some 204) :=
  collection_delete_returns_none [(1, 2)] [(1, 2)] [(1, 3)] 1 2 3
    (by decide) (by decide) (by decide)

/-- C10: when the `recipes_limit` query parameter is present but is not a
decimal integer string, `UserDetailSerializer.get_recipes` raises an
unhandled ValueError (modelled as `Except.error`, not a validation error);
when the parameter is absent the limit defaults to `10 ** 10`. -/
theorem recipes_limit_parsing (s : String) (recipes : List Recipe)
    (hbad : pyInt s = none) :
    get_recipes (some s) recipes
        = Except.error ("ValueError: invalid literal for int() with base 10") ∧
    get_recipes none recipes = Except.ok (recipes.take (10 ^ 10)) := by
  constructor
  · simp [get_recipes, hbad]
  · have h10 : ((10 : Int) ^ 10).toNat = 10 ^ 10 := by decide
    have hpos : ¬ ((10 : Int) ^ 10 < 0) := by decide
    simp [get_recipes, hpos, h10]

/-- C10 witness: `recipes_limit=abc` raises, and the absent parameter slices
with the default limit. -/
theorem recipes_limit_parsing_witness :
    get_recipes (some ("abc")) [Recipe.mk 1 ("R1")]
        = Except.error ("ValueError: invalid literal for int() with base 10") ∧
    get_recipes none [Recipe.mk 1 ("R1")]
        = Except.ok ([Recipe.mk 1 ("R1")].take (10 ^ 10)) :=
  recipes_limit_parsing ("abc") [Recipe.mk 1 ("R1")] (by decide)

end Foodgram
